import Mathlib

/-!
Verification development for the pi-data-pipeline dashboard client
(docs/js/app.js, docs/js/config.js).  The repository contains two
implementation variants of the client, concatenated in the source
tree; definitions below marked V2 embed the second variant, unmarked
ones the first.  Numeric sensor values are modelled as rationals,
instants as naturals (the code compares timestamps with strict
equality and datetime strings whose parse order agrees with the
numeric order).  DOM rendering is projected to the view-model data it
receives.
-/

namespace PiData

/-- Reading delivered by GET /api/latest: one timestamped multi-metric
sample from a node.  Optional metric fields model null/undefined. -/
structure Reading where
  node_id : String
  timestamp : Nat
  temperature : Option Rat
  relative_humidity : Option Rat
  soil_moisture : Option Rat
  lux : Option Rat
  voltage : Option Rat
deriving Repr, DecidableEq

/-- TimeSeriesPoint delivered by GET /api/timeseries: one row per
(node, time-bucket). -/
structure TimeSeriesPoint where
  node_id : String
  timestamp : Nat
  avg_temp : Option Rat
  avg_humidity : Option Rat
  avg_soil_moisture : Option Rat
  avg_lux : Option Rat
  avg_voltage : Option Rat
deriving Repr, DecidableEq

/-- NodeLocation delivered by GET /api/nodes/locations. -/
structure NodeLocation where
  node_id : String
  name : Option String
  lat : Option Rat
  lon : Option Rat
  avg_temp : Option Rat
  avg_humidity : Option Rat
  avg_soil_moisture : Option Rat
  avg_lux : Option Rat
  avg_voltage : Option Rat
deriving Repr, DecidableEq

/-- ConnectionState shown by the connection indicator: the boolean
this.isConnected rendered as Connected / Disconnected. -/
inductive ConnectionState where
  | Connected
  | Disconnected
deriving Repr, DecidableEq

/-- Events that reach updateConnectionStatus, one per call site in the
source: fetchAPI catch (false), fetchAllData completion after
Promise.all (true), SSE onmessage with a parsed body (true), SSE
onerror (false).  A successful individual fetchAPI call and an
unparseable SSE body perform no call, which the step function renders
as the identity. -/
inductive ConnEvent where
  | fetchFailure
  | fetchSuccess
  | allDataCompleted
  | streamMessageParsed
  | streamKeepalive
  | streamError
deriving Repr, DecidableEq

/-- Connection State Tracker step: updateConnectionStatus(false) on
fetchAPI errors and SSE errors, updateConnectionStatus(true) on
fetchAllData completion and parsed SSE messages; events with no call
site leave this.isConnected untouched. -/
def connStep (s : ConnectionState) (e : ConnEvent) : ConnectionState :=
  match e with
  | .fetchFailure => .Disconnected
  | .fetchSuccess => s
  | .allDataCompleted => .Connected
  | .streamMessageParsed => .Connected
  | .streamKeepalive => s
  | .streamError => .Disconnected

/-- Trace of observed states: the state after each event of the run,
in order. -/
def runTracker (s : ConnectionState) : List ConnEvent → List ConnectionState
  | [] => []
  | e :: es => connStep s e :: runTracker (connStep s e) es

/-- State owned by the replace-on-change Live Feed Merger of the first
variant: this.lastLiveDataTimestamp plus the rendered list of
readings in liveDataContainer (the empty list models the cleared
container showing the no-data placeholder). -/
structure LiveFeedState where
  lastLiveDataTimestamp : Option Nat
  buffer : List Reading
deriving Repr, DecidableEq

/-- updateLiveDataFeed: an empty batch clears the container and shows
the placeholder; otherwise the container is rebuilt from the first 10
elements of the batch (dataArray.slice(0, 10)). -/
def updateLiveDataFeed (dataArray : List Reading) : List Reading :=
  if dataArray.length = 0 then [] else dataArray.take 10

/-- fetchLiveData applied to a successfully fetched batch: a non-empty
batch is rendered only when lastLiveDataTimestamp is null or differs
from the newest element timestamp, in which case the remembered
timestamp is updated first; an empty batch is passed straight to
updateLiveDataFeed, leaving the remembered timestamp untouched. -/
def fetchLiveDataStep (s : LiveFeedState) (data : List Reading) : LiveFeedState :=
  match data with
  | [] => { lastLiveDataTimestamp := s.lastLiveDataTimestamp,
            buffer := updateLiveDataFeed [] }
  | d0 :: rest =>
      if s.lastLiveDataTimestamp = none ∨ ¬ some d0.timestamp = s.lastLiveDataTimestamp then
        { lastLiveDataTimestamp := some d0.timestamp,
          buffer := updateLiveDataFeed (d0 :: rest) }
      else s

/-- addToLiveDataFeed eviction loop of the second variant: while the
container holds more than 10 items, remove the last child. -/
def evictToTen (l : List Reading) : List Reading :=
  if l.length > 10 then evictToTen l.dropLast else l
termination_by l.length
decreasing_by
  simp only [List.length_dropLast]
  omega

/-- addToLiveDataFeed of the second variant: insert the pushed reading
at the front of the container, then evict from the back until at most
10 items remain. -/
def addToLiveDataFeed (buffer : List Reading) (r : Reading) : List Reading :=
  evictToTen (r :: buffer)

/-- Newest-first ordering of a feed buffer: every element is at least
as new as every element after it. -/
def newestFirst (l : List Reading) : Prop :=
  List.Pairwise (fun a b => b.timestamp ≤ a.timestamp) l

instance (l : List Reading) : Decidable (newestFirst l) := by
  unfold newestFirst
  infer_instance

/-- Metric selectable for a chart or the heat map; the second variant
switches on the values temperature, humidity, soil_moisture, lux and
the first additionally charts voltage. -/
inductive Metric where
  | temperature
  | humidity
  | soil_moisture
  | lux
  | voltage
deriving Repr, DecidableEq

/-- Metric field of a TimeSeriesPoint used for the corresponding
chart dataset. -/
def metricValue (m : Metric) (p : TimeSeriesPoint) : Option Rat :=
  match m with
  | .temperature => p.avg_temp
  | .humidity => p.avg_humidity
  | .soil_moisture => p.avg_soil_moisture
  | .lux => p.avg_lux
  | .voltage => p.avg_voltage

/-- First-occurrence deduplication, the behaviour of building a Set
from an array (first variant) and of filter with indexOf (second
variant); seen accumulates the values already kept. -/
def distinctFirstAux {α : Type} [DecidableEq α] (seen : List α) : List α → List α
  | [] => []
  | a :: l =>
      if a ∈ seen then distinctFirstAux seen l
      else a :: distinctFirstAux (a :: seen) l

/-- Distinct values of a list in first-occurrence order. -/
def distinctFirst {α : Type} [DecidableEq α] (l : List α) : List α :=
  distinctFirstAux [] l

/-- Label axis of updateCharts: the distinct timestamps of the input
rows in first-occurrence order.  Locale formatting of the timestamp is
abstracted as the identity on model instants. -/
def chartLabels (ts : List TimeSeriesPoint) : List Nat :=
  distinctFirst (ts.map (fun p => p.timestamp))

/-- Key order of the nodeData grouping object: node ids in
first-occurrence order. -/
def nodeIds (ts : List TimeSeriesPoint) : List String :=
  distinctFirst (ts.map (fun p => p.node_id))

/-- Partition of the input rows pushed under one node id, preserving
the original relative order. -/
def nodePoints (ts : List TimeSeriesPoint) (nid : String) : List TimeSeriesPoint :=
  ts.filter (fun p => p.node_id = nid)

/-- Datasets produced by updateCharts for one metric: for each node id
in key order, the label paired with nodeData[nodeId].map of the metric
field.  Rendering attributes (colors, tension, fill) are projected
away. -/
def chartDatasets (m : Metric) (ts : List TimeSeriesPoint) :
    List (String × List (Option Rat)) :=
  (nodeIds ts).map (fun nid => (nid, (nodePoints ts nid).map (metricValue m)))

/-- Average field of a NodeLocation selected by the heat-map metric;
models the dynamic lookup of the avg_ field for the selected metric
(and the switch of the second variant).  Voltage is carried for
completeness though neither heat-map selector offers it. -/
def avgField (m : Metric) (l : NodeLocation) : Option Rat :=
  match m with
  | .temperature => l.avg_temp
  | .humidity => l.avg_humidity
  | .soil_moisture => l.avg_soil_moisture
  | .lux => l.avg_lux
  | .voltage => l.avg_voltage

/-- Marker coordinates placed by the first variant updateMap: the loop
returns early when location.lat or location.lon is falsy, which for a
numeric coordinate means absent or zero. -/
def markerCoords : List NodeLocation → List (Rat × Rat)
  | [] => []
  | l :: rest =>
      match l.lat, l.lon with
      | some la, some lo =>
          if la = 0 ∨ lo = 0 then markerCoords rest
          else (la, lo) :: markerCoords rest
      | none, _ => markerCoords rest
      | some _, none => markerCoords rest

/-- Heat samples built by the first variant updateMap: after the same
falsiness guard on the coordinates, a tuple is pushed only when the
selected metric value is neither null nor undefined. -/
def heatSamples (m : Metric) : List NodeLocation → List (Rat × Rat × Rat)
  | [] => []
  | l :: rest =>
      match l.lat, l.lon with
      | some la, some lo =>
          if la = 0 ∨ lo = 0 then heatSamples m rest
          else
            match avgField m l with
            | some v => (la, lo, v) :: heatSamples m rest
            | none => heatSamples m rest
      | none, _ => heatSamples m rest
      | some _, none => heatSamples m rest

/-- Heat samples built by the second variant updateMap: a tuple is
pushed for every location with no coordinate check, the intensity
defaulting to 0 when the metric average is falsy, divided by 100. -/
def heatSamplesV2 (m : Metric) (locs : List NodeLocation) :
    List (Option Rat × Option Rat × Rat) :=
  locs.map (fun node => (node.lat, node.lon, (avgField m node).getD 0 / 100))

/-- Slice of app state read and written by the custom-range controls:
this.customTimeRange (both components null initially) and
this.isCustomRange. -/
structure CustomRangeState where
  customStart : Option Nat
  customEnd : Option Nat
  isCustomRange : Bool
deriving Repr, DecidableEq

/-- Outcome of the applyCustomRange click handler: the resulting
state slice, whether the invalid-range alert was shown, and whether
fetchTimeSeriesData was invoked. -/
structure ApplyRangeOutcome where
  state : CustomRangeState
  invalidRangeAlert : Bool
  fetchIssued : Bool
deriving Repr, DecidableEq

/-- applyCustomRange handler: alerts and returns early when either
input is empty or when the parsed start is not strictly before the
parsed end; otherwise stores the range, marks custom mode and fetches.
An empty datetime-local input is modelled as none; parsing of
well-formed inputs is order-preserving, so the Date comparison is the
numeric one. -/
def applyCustomRange (s : CustomRangeState) (startTime endTime : Option Nat) :
    ApplyRangeOutcome :=
  match startTime, endTime with
  | none, _ =>
      { state := s, invalidRangeAlert := true, fetchIssued := false }
  | some _, none =>
      { state := s, invalidRangeAlert := true, fetchIssued := false }
  | some a, some b =>
      if b ≤ a then
        { state := s, invalidRangeAlert := true, fetchIssued := false }
      else
        { state := { customStart := some a, customEnd := some b, isCustomRange := true },
          invalidRangeAlert := false, fetchIssued := true }

/-- Value of the timeRange select element: a preset hour count or the
custom option. -/
inductive TimeRangeSelection where
  | preset (hours : Nat)
  | custom
deriving Repr, DecidableEq

/-- Serialized bound appended to the export query: the custom branch
sends the stored local value with a zero-seconds suffix, the preset
branch sends toISOString of an absolute instant in milliseconds. -/
inductive TimeParam where
  | localSeconds (t : Nat)
  | isoUtc (t : Nat)
deriving Repr, DecidableEq

/-- Result of downloadCSV up to the network boundary: the query
parameters appended to /api/export/csv and whether the request was
issued at all. -/
structure CsvDownload where
  queryParams : List (String × TimeParam)
  requestIssued : Bool
deriving Repr, DecidableEq

/-- downloadCSV: a confirmed custom range is sent as local
second-precision bounds; otherwise a preset selection is sent as the
ISO pair (now - hours in milliseconds, now); otherwise no parameter is
appended.  The fetch of the resulting URL is performed
unconditionally. -/
def downloadCSV (isCustomRange : Bool) (customStart customEnd : Option Nat)
    (sel : TimeRangeSelection) (now : Nat) : CsvDownload :=
  let ps : List (String × TimeParam) :=
    match isCustomRange, customStart, customEnd with
    | true, some a, some b =>
        [("start", .localSeconds a), ("end", .localSeconds b)]
    | _, _, _ =>
        match sel with
        | .preset hours => [("start", .isoUtc (now - hours * 3600000)), ("end", .isoUtc now)]
        | .custom => []
  { queryParams := ps, requestIssued := true }

/-- Observable result of one SSE onmessage callback of the first
variant: connection state, live feed buffer, and whether a chart
refetch was triggered. -/
structure SSEMessageResult where
  connection : ConnectionState
  feed : List Reading
  chartRefreshTriggered : Bool
deriving Repr, DecidableEq

/-- First variant onmessage: when the body parses as JSON the handler
refetches the time series and sets the status to connected; when
JSON.parse throws, the catch branch only logs the keepalive and
nothing else runs. -/
def sseOnMessage (conn : ConnectionState) (feed : List Reading) (parses : Bool) :
    SSEMessageResult :=
  if parses then
    { connection := .Connected, feed := feed, chartRefreshTriggered := true }
  else
    { connection := conn, feed := feed, chartRefreshTriggered := false }

/-- Second variant onmessage: a parsed payload is prepended to the
live feed and the status set to connected; an unparseable body makes
JSON.parse throw before any state change, aborting the handler. -/
def sseOnMessageV2 (conn : ConnectionState) (feed : List Reading)
    (parsed : Option Reading) : ConnectionState × List Reading :=
  match parsed with
  | some r => (.Connected, addToLiveDataFeed feed r)
  | none => (conn, feed)

/-! Supporting lemmas. -/

/-- The eviction loop returns a back-truncation of its input. -/
theorem evictToTen_sublist (l : List Reading) : (evictToTen l).Sublist l := by
  induction l using evictToTen.induct with
  | case1 l h ih =>
      rw [evictToTen, if_pos h]
      exact ih.trans (List.dropLast_sublist l)
  | case2 l h =>
      rw [evictToTen, if_neg h]

/-- The eviction loop always ends with at most 10 items. -/
theorem evictToTen_length_le (l : List Reading) : (evictToTen l).length ≤ 10 := by
  induction l using evictToTen.induct with
  | case1 l h ih =>
      rw [evictToTen, if_pos h]
      exact ih
  | case2 l h =>
      rw [evictToTen, if_neg h]
      omega

/-- Prepending a reading at least as new as the head keeps the buffer
newest-first. -/
theorem newestFirst_cons (r : Reading) (buf : List Reading)
    (hbuf : newestFirst buf)
    (hhd : ∀ hd, buf.head? = some hd → hd.timestamp ≤ r.timestamp) :
    newestFirst (r :: buf) := by
  unfold newestFirst at hbuf ⊢
  cases buf with
  | nil => simp
  | cons hd tl =>
      have h1 : hd.timestamp ≤ r.timestamp := hhd hd rfl
      rw [List.pairwise_cons]
      refine ⟨?_, hbuf⟩
      intro b hb
      rcases List.mem_cons.mp hb with hb | hb
      · exact hb ▸ h1
      · exact le_trans ((List.pairwise_cons.mp hbuf).1 b hb) h1

/-! Claim theorems. -/

/-- C1: under the replace-on-change policy, an empty batch clears the
feed buffer; a non-empty batch whose newest (first) element timestamp
equals the remembered last-rendered newest timestamp leaves the state
unchanged; a non-empty batch whose newest timestamp differs from the
remembered one (in particular when nothing was rendered yet) replaces
the whole view with the batch and remembers its newest timestamp. -/
theorem c1_replace_on_change (s : LiveFeedState) (B : List Reading)
    (hlen : B.length ≤ 10) :
    (B = [] → (fetchLiveDataStep s B).buffer = [] ∧
       (fetchLiveDataStep s B).lastLiveDataTimestamp = s.lastLiveDataTimestamp) ∧
    (∀ d0 rest, B = d0 :: rest →
       s.lastLiveDataTimestamp = some d0.timestamp →
       fetchLiveDataStep s B = s) ∧
    (∀ d0 rest, B = d0 :: rest →
       ¬ s.lastLiveDataTimestamp = some d0.timestamp →
       (fetchLiveDataStep s B).buffer = B ∧
       (fetchLiveDataStep s B).lastLiveDataTimestamp = some d0.timestamp) := by
  refine ⟨?_, ?_, ?_⟩
  · rintro rfl
    simp [fetchLiveDataStep, updateLiveDataFeed]
  · rintro d0 rest rfl hts
    have hcond : ¬ (s.lastLiveDataTimestamp = none ∨
        ¬ some d0.timestamp = s.lastLiveDataTimestamp) := by
      rw [hts]
      simp
    simp only [fetchLiveDataStep, if_neg hcond]
  · rintro d0 rest rfl hts
    have hcond : s.lastLiveDataTimestamp = none ∨
        ¬ some d0.timestamp = s.lastLiveDataTimestamp := by
      right
      intro h
      exact hts h.symm
    simp only [fetchLiveDataStep, if_pos hcond]
    refine ⟨?_, trivial⟩
    simp only [updateLiveDataFeed]
    rw [if_neg (by simp)]
    exact List.take_of_length_le hlen

/-- Witness for c1_replace_on_change at concrete inputs: a remembered
timestamp 5 skips an equal-timestamp batch and renders a batch with
the fresh timestamp 7. -/
theorem c1_witness :
    fetchLiveDataStep ⟨some 5, []⟩
        [⟨"n1", 5, none, none, none, none, none⟩] = ⟨some 5, []⟩ ∧
    (fetchLiveDataStep ⟨some 5, []⟩
        [⟨"n1", 7, none, none, none, none, none⟩]).buffer =
      [⟨"n1", 7, none, none, none, none, none⟩] ∧
    (fetchLiveDataStep ⟨some 5, [⟨"n1", 5, none, none, none, none, none⟩]⟩ []).buffer = [] := by
  refine ⟨?_, ?_, ?_⟩
  · exact (c1_replace_on_change ⟨some 5, []⟩ _ (by decide)).2.1 _ _ rfl (by decide)
  · exact ((c1_replace_on_change ⟨some 5, []⟩ _ (by decide)).2.2 _ _ rfl (by decide)).1
  · exact ((c1_replace_on_change ⟨some 5, [⟨"n1", 5, none, none, none, none, none⟩]⟩ []
      (by decide)).1 rfl).1

/-- C2 counterexample: the tracker does not map a successful fetch
response to Connected.  From either initial state, the run
[fetch failure, fetch success, fetch failure] yields
[Disconnected, Disconnected, Disconnected], not the claimed
[Disconnected, Connected, Disconnected]: a successful individual
fetch performs no updateConnectionStatus call. -/
theorem c2_counterexample :
    runTracker .Connected [.fetchFailure, .fetchSuccess, .fetchFailure] =
      [.Disconnected, .Disconnected, .Disconnected] ∧
    runTracker .Disconnected [.fetchFailure, .fetchSuccess, .fetchFailure] =
      [.Disconnected, .Disconnected, .Disconnected] ∧
    ([ConnectionState.Disconnected, .Disconnected, .Disconnected] ≠
      [.Disconnected, .Connected, .Disconnected]) := by
  decide

/-- C2 amended: every fetch failure or stream error maps to
Disconnected; completion of the concurrent fetch batch and a parsed
push-stream message map to Connected; a successful individual fetch
response and an unparseable keepalive leave the state unchanged.
Consequently the run [fetch failure, batch completion, fetch failure]
yields [Disconnected, Connected, Disconnected] with no intermediate
state skipped. -/
theorem c2_tracker_transitions (s : ConnectionState) :
    connStep s .fetchFailure = .Disconnected ∧
    connStep s .streamError = .Disconnected ∧
    connStep s .allDataCompleted = .Connected ∧
    connStep s .streamMessageParsed = .Connected ∧
    connStep s .fetchSuccess = s ∧
    connStep s .streamKeepalive = s ∧
    runTracker s [.fetchFailure, .allDataCompleted, .fetchFailure] =
      [.Disconnected, .Connected, .Disconnected] := by
  cases s <;> decide

/-- C3: the applyCustomRange handler surfaces the invalid-range alert
exactly when the start input is empty, the end input is empty, or the
start is not strictly before the end; whenever it alerts, the stored
custom-range state is unchanged and no fetch is issued. -/
theorem c3_custom_range_validation (s : CustomRangeState) (a b : Option Nat) :
    ((applyCustomRange s a b).invalidRangeAlert = true ↔
      a = none ∨ b = none ∨ ∃ x y, a = some x ∧ b = some y ∧ y ≤ x) ∧
    ((applyCustomRange s a b).invalidRangeAlert = true →
      (applyCustomRange s a b).state = s ∧
      (applyCustomRange s a b).fetchIssued = false) := by
  cases a with
  | none => simp [applyCustomRange]
  | some x =>
      cases b with
      | none => simp [applyCustomRange]
      | some y =>
          by_cases h : y ≤ x
          · simp [applyCustomRange, if_pos h, h]
          · simp [applyCustomRange, if_neg h, h]

/-- Witness for c3_custom_range_validation: the scenario of a custom
window whose start (hour 10) is after its end (hour 9) alerts, keeps
the stored range untouched and issues no request. -/
theorem c3_witness :
    (applyCustomRange ⟨none, none, false⟩ (some 10) (some 9)).invalidRangeAlert = true ∧
    (applyCustomRange ⟨none, none, false⟩ (some 10) (some 9)).state = ⟨none, none, false⟩ ∧
    (applyCustomRange ⟨none, none, false⟩ (some 10) (some 9)).fetchIssued = false := by
  have h := c3_custom_range_validation ⟨none, none, false⟩ (some 10) (some 9)
  have halert : (applyCustomRange ⟨none, none, false⟩ (some 10) (some 9)).invalidRangeAlert = true :=
    h.1.mpr (Or.inr (Or.inr ⟨10, 9, rfl, rfl, by decide⟩))
  exact ⟨halert, (h.2 halert).1, (h.2 halert).2⟩

/-- C9: clearing the feed with an empty batch leaves the remembered
newest timestamp in place, so a later non-empty batch whose newest
timestamp equals the remembered one is skipped and the feed stays
cleared instead of being restored. -/
theorem c9_clear_keeps_timestamp (s : LiveFeedState) (T : Nat)
    (d0 : Reading) (rest : List Reading)
    (hT : s.lastLiveDataTimestamp = some T) (hts : d0.timestamp = T) :
    (fetchLiveDataStep s []).buffer = [] ∧
    (fetchLiveDataStep s []).lastLiveDataTimestamp = some T ∧
    fetchLiveDataStep (fetchLiveDataStep s []) (d0 :: rest) = fetchLiveDataStep s [] ∧
    (fetchLiveDataStep (fetchLiveDataStep s []) (d0 :: rest)).buffer = [] := by
  have h1 : fetchLiveDataStep s [] =
      { lastLiveDataTimestamp := s.lastLiveDataTimestamp, buffer := [] } := by
    simp [fetchLiveDataStep, updateLiveDataFeed]
  have h2 : fetchLiveDataStep (fetchLiveDataStep s []) (d0 :: rest) =
      fetchLiveDataStep s [] := by
    rw [h1]
    have hcond : ¬ ((some T : Option Nat) = none ∨ ¬ some d0.timestamp = some T) := by
      simp [hts]
    simp only [fetchLiveDataStep, hT]
    rw [if_neg hcond]
  refine ⟨by rw [h1], by rw [h1, hT], h2, by rw [h2, h1]⟩

/-- Witness for c9_clear_keeps_timestamp: after rendering timestamp 5,
an empty batch clears the feed and a new batch with timestamp 5 is
skipped, leaving the feed cleared. -/
theorem c9_witness :
    (fetchLiveDataStep ⟨some 5, [⟨"n1", 5, none, none, none, none, none⟩]⟩ []).buffer = [] ∧
    fetchLiveDataStep
        (fetchLiveDataStep ⟨some 5, [⟨"n1", 5, none, none, none, none, none⟩]⟩ [])
        [⟨"n2", 5, none, none, none, none, none⟩] =
      fetchLiveDataStep ⟨some 5, [⟨"n1", 5, none, none, none, none, none⟩]⟩ [] := by
  have h := c9_clear_keeps_timestamp ⟨some 5, [⟨"n1", 5, none, none, none, none, none⟩]⟩ 5
    ⟨"n2", 5, none, none, none, none, none⟩ [] rfl rfl
  exact ⟨h.1, h.2.2.1⟩

/-- C4 counterexample: the aggregator does not align value arrays to
the label axis.  For the input [(n1, t1), (n1, t2), (n2, t2)] the
label axis has two positions but the dataset of n2 carries a single
value, so there is not exactly one value per label position and no
null gap is inserted at the label n2 lacks. -/
theorem c4_counterexample :
    ¬ (∀ (m : Metric) (ts : List TimeSeriesPoint) (ds : String × List (Option Rat)),
        ds ∈ chartDatasets m ts → ds.2.length = (chartLabels ts).length) := by
  intro h
  have h2 := h .temperature
    [⟨"n1", 1, none, none, none, none, none⟩,
     ⟨"n1", 2, none, none, none, none, none⟩,
     ⟨"n2", 2, none, none, none, none, none⟩]
    ("n2", [none]) (by decide)
  exact absurd h2 (by decide)

/-- C4 amended: for each node partition and each metric the aggregator
produces one value per input point of that node, in the partition
order, each value taken verbatim from the point's metric field (null
when the field is absent, never zero, never fabricated); the array is
not padded to the label axis, so its length is the node's point count
rather than the label count. -/
theorem c4_series_per_point (m : Metric) (ts : List TimeSeriesPoint)
    (nid : String) (data : List (Option Rat))
    (h : (nid, data) ∈ chartDatasets m ts) :
    data = (nodePoints ts nid).map (metricValue m) ∧
    data.length = (nodePoints ts nid).length ∧
    (∀ v : Rat, some v ∈ data → ∃ p ∈ ts, p.node_id = nid ∧ metricValue m p = some v) := by
  obtain ⟨a, ha, heq⟩ := List.mem_map.mp h
  simp only [Prod.mk.injEq] at heq
  obtain ⟨h1, h2⟩ := heq
  subst h1
  subst h2
  refine ⟨rfl, List.length_map _ _, ?_⟩
  intro v hv
  obtain ⟨p, hp, hpv⟩ := List.mem_map.mp hv
  have hp2 := List.mem_filter.mp hp
  exact ⟨p, hp2.1, of_decide_eq_true hp2.2, hpv⟩

/-- Witness for c4_series_per_point at a one-point input: the dataset
of n1 is exactly the single (absent) temperature value of its one
point. -/
theorem c4_witness :
    ([(none : Option Rat)] =
      (nodePoints [⟨"n1", 1, none, none, none, none, none⟩] "n1").map
        (metricValue .temperature)) ∧
    ([(none : Option Rat)]).length =
      (nodePoints [⟨"n1", 1, none, none, none, none, none⟩] "n1").length := by
  have h := c4_series_per_point .temperature
    [⟨"n1", 1, none, none, none, none, none⟩] "n1" [none] (by decide)
  exact ⟨h.1, h.2.1⟩

/-- C5 counterexample: a push-stream message whose body does not parse
leaves a Disconnected tracker Disconnected in both variants; it does
not transition the state to Connected as claimed. -/
theorem c5_counterexample :
    (sseOnMessage .Disconnected [] false).connection = .Disconnected ∧
    (sseOnMessageV2 .Disconnected [] none).1 = .Disconnected ∧
    ConnectionState.Disconnected ≠ .Connected := by
  decide

/-- C5 amended: a push-stream message whose body does not parse leaves
the connection state unchanged (it is not transitioned to Connected),
leaves the live feed buffer unchanged, and triggers no refetch, in
both variants. -/
theorem c5_keepalive_inert (conn : ConnectionState) (feed : List Reading) :
    sseOnMessage conn feed false = ⟨conn, feed, false⟩ ∧
    sseOnMessageV2 conn feed none = (conn, feed) := by
  constructor
  · simp [sseOnMessage]
  · rfl

/-- C6 counterexample: with custom selected but no confirmed range,
downloadCSV still issues the export request, with an empty parameter
list, instead of skipping it. -/
theorem c6_counterexample :
    (downloadCSV true none none .custom 0).requestIssued = true ∧
    ¬ (downloadCSV true none none .custom 0).requestIssued = false ∧
    (downloadCSV true none none .custom 0).queryParams = [] := by
  decide

/-- C6 amended: for every export request made while custom is the
selected window mode but no concrete range has been confirmed, the
export proceeds instead of being skipped; the request is issued to the
backend with no start or end parameter (an unbounded export) and no
error is surfaced before the request. -/
theorem c6_unconfirmed_custom_export (cs ce : Option Nat) (now : Nat)
    (h : cs = none ∨ ce = none) :
    (downloadCSV true cs ce .custom now).queryParams = [] ∧
    (downloadCSV true cs ce .custom now).requestIssued = true := by
  rcases h with h | h <;> subst h
  · cases ce <;> simp [downloadCSV]
  · cases cs <;> simp [downloadCSV]

/-- Witness for c6_unconfirmed_custom_export: with no stored start
bound the export goes out with no parameters. -/
theorem c6_witness :
    (downloadCSV true none (some 3) .custom 7).queryParams = [] ∧
    (downloadCSV true none (some 3) .custom 7).requestIssued = true :=
  c6_unconfirmed_custom_export none (some 3) 7 (Or.inl rfl)

/-- C7 counterexample: the second variant's builder emits a heat tuple
for a location whose selected metric average is absent, fabricating
intensity 0, so the claim fails on it. -/
theorem c7_counterexample :
    (⟨"n1", none, some 1, some 2, none, none, none, none, none⟩ : NodeLocation).avg_temp
      = none ∧
    heatSamplesV2 .temperature
        [⟨"n1", none, some 1, some 2, none, none, none, none, none⟩] =
      [(some 1, some 2, 0)] := by
  refine ⟨rfl, ?_⟩
  simp [heatSamplesV2, avgField]

/-- C7 amended: the first variant's builder emits a tuple only for
locations whose lat and lon are present and truthy and whose selected
metric average is present, with every tuple traced verbatim to such a
location; the second variant's builder instead emits a tuple for
every location, with no coordinate check and intensity 0 substituted
for an absent average. -/
theorem c7_v1_emits_only_present (m : Metric) (locs : List NodeLocation)
    (la lo v : Rat) (h : (la, lo, v) ∈ heatSamples m locs) :
    ∃ l ∈ locs, l.lat = some la ∧ l.lon = some lo ∧ ¬ la = 0 ∧ ¬ lo = 0 ∧
      avgField m l = some v := by
  induction locs with
  | nil => simp [heatSamples] at h
  | cons l rest ih =>
      simp only [heatSamples] at h
      split at h
      · rename_i la2 lo2 hlat hlon
        split at h
        · obtain ⟨l2, hl2, hrest⟩ := ih h
          exact ⟨l2, List.mem_cons_of_mem _ hl2, hrest⟩
        · rename_i hzero
          split at h
          · rename_i v2 hav
            rcases List.mem_cons.mp h with hh | hh
            · simp only [Prod.mk.injEq] at hh
              obtain ⟨e1, e2, e3⟩ := hh
              subst e1
              subst e2
              subst e3
              push_neg at hzero
              exact ⟨l, List.mem_cons_self l rest, hlat, hlon, hzero.1, hzero.2, hav⟩
            · obtain ⟨l2, hl2, hrest⟩ := ih hh
              exact ⟨l2, List.mem_cons_of_mem _ hl2, hrest⟩
          · obtain ⟨l2, hl2, hrest⟩ := ih h
            exact ⟨l2, List.mem_cons_of_mem _ hl2, hrest⟩
      · obtain ⟨l2, hl2, hrest⟩ := ih h
        exact ⟨l2, List.mem_cons_of_mem _ hl2, hrest⟩
      · obtain ⟨l2, hl2, hrest⟩ := ih h
        exact ⟨l2, List.mem_cons_of_mem _ hl2, hrest⟩

/-- Witness for c7_v1_emits_only_present: the one emitted sample of a
complete location traces back to it. -/
theorem c7_witness :
    ∃ l ∈ [(⟨"n1", none, some 1, some 2, some 5, none, none, none, none⟩ : NodeLocation)],
      l.lat = some 1 ∧ l.lon = some 2 ∧ ¬ (1 : Rat) = 0 ∧ ¬ (2 : Rat) = 0 ∧
        avgField .temperature l = some 5 :=
  c7_v1_emits_only_present .temperature
    [⟨"n1", none, some 1, some 2, some 5, none, none, none, none⟩] 1 2 5 (by decide)

/-- C8: after a batch update of the replace-on-change merger applied
to a newest-first batch, and after a prepend-with-cap insert of a
reading at least as new as the buffer head into a newest-first buffer,
the live feed buffer holds at most 10 entries and stays newest-first
(given the buffer satisfied the invariant before the batch update). -/
theorem c8_buffer_invariant (s : LiveFeedState) (batch buf : List Reading) (r : Reading)
    (hblen : s.buffer.length ≤ 10) (hbord : newestFirst s.buffer)
    (hbatch : newestFirst batch) (hord : newestFirst buf)
    (hhd : ∀ hd, buf.head? = some hd → hd.timestamp ≤ r.timestamp) :
    ((fetchLiveDataStep s batch).buffer.length ≤ 10 ∧
      newestFirst (fetchLiveDataStep s batch).buffer) ∧
    ((addToLiveDataFeed buf r).length ≤ 10 ∧
      newestFirst (addToLiveDataFeed buf r)) := by
  constructor
  · cases batch with
    | nil =>
        simp [fetchLiveDataStep, updateLiveDataFeed, newestFirst]
    | cons d0 rest =>
        by_cases hcond : s.lastLiveDataTimestamp = none ∨
            ¬ some d0.timestamp = s.lastLiveDataTimestamp
        · simp only [fetchLiveDataStep, if_pos hcond]
          have hupd : updateLiveDataFeed (d0 :: rest) = (d0 :: rest).take 10 := by
            simp [updateLiveDataFeed]
          constructor
          · show (updateLiveDataFeed (d0 :: rest)).length ≤ 10
            rw [hupd, List.length_take]
            exact min_le_left _ _
          · show newestFirst (updateLiveDataFeed (d0 :: rest))
            rw [hupd]
            exact List.Pairwise.sublist (List.take_sublist _ _) hbatch
        · simp only [fetchLiveDataStep, if_neg hcond]
          exact ⟨hblen, hbord⟩
  · exact ⟨evictToTen_length_le _,
      List.Pairwise.sublist (evictToTen_sublist _) (newestFirst_cons r buf hord hhd)⟩

/-- Witness for c8_buffer_invariant: a fresh one-element batch and a
prepend of a newer reading both keep the invariant. -/
theorem c8_witness :
    ((fetchLiveDataStep ⟨none, []⟩ [⟨"n1", 5, none, none, none, none, none⟩]).buffer.length ≤ 10 ∧
      newestFirst (fetchLiveDataStep ⟨none, []⟩
        [⟨"n1", 5, none, none, none, none, none⟩]).buffer) ∧
    ((addToLiveDataFeed [⟨"n1", 5, none, none, none, none, none⟩]
        ⟨"n2", 6, none, none, none, none, none⟩).length ≤ 10 ∧
      newestFirst (addToLiveDataFeed [⟨"n1", 5, none, none, none, none, none⟩]
        ⟨"n2", 6, none, none, none, none, none⟩)) := by
  refine c8_buffer_invariant ⟨none, []⟩ [⟨"n1", 5, none, none, none, none, none⟩]
    [⟨"n1", 5, none, none, none, none, none⟩] ⟨"n2", 6, none, none, none, none, none⟩
    (by decide) (by decide) (by decide) (by decide) ?_
  intro hd hhd
  rw [List.head?_cons, Option.some.injEq] at hhd
  subst hhd
  decide

/-- C10: the coordinate test of the first variant's map update is
falsiness-based, so a location whose lat or lon equals 0 contributes
neither a marker nor a heat sample, exactly like a location whose
coordinates are absent. -/
theorem c10_zero_coordinate_excluded (m : Metric) (l : NodeLocation)
    (rest : List NodeLocation) (h : l.lat = some 0 ∨ l.lon = some 0) :
    markerCoords (l :: rest) = markerCoords rest ∧
    heatSamples m (l :: rest) = heatSamples m rest ∧
    markerCoords (⟨l.node_id, l.name, none, none, l.avg_temp, l.avg_humidity,
        l.avg_soil_moisture, l.avg_lux, l.avg_voltage⟩ :: rest) = markerCoords rest ∧
    heatSamples m (⟨l.node_id, l.name, none, none, l.avg_temp, l.avg_humidity,
        l.avg_soil_moisture, l.avg_lux, l.avg_voltage⟩ :: rest) = heatSamples m rest := by
  refine ⟨?_, ?_, rfl, rfl⟩
  · simp only [markerCoords]
    rcases h with h0 | h0 <;> rw [h0]
    · cases hl : l.lon with
      | none => rfl
      | some lo => simp
    · cases hl : l.lat with
      | none => rfl
      | some la => simp
  · simp only [heatSamples]
    rcases h with h0 | h0 <;> rw [h0]
    · cases hl : l.lon with
      | none => rfl
      | some lo => simp
    · cases hl : l.lat with
      | none => rfl
      | some la => simp

/-- Witness for c10_zero_coordinate_excluded: a location on the
equator (lat 0) yields no marker and no heat sample. -/
theorem c10_witness :
    markerCoords [⟨"n1", none, some 0, some 3, some 4, none, none, none, none⟩] = [] ∧
    heatSamples .temperature
      [⟨"n1", none, some 0, some 3, some 4, none, none, none, none⟩] = [] := by
  have h := c10_zero_coordinate_excluded .temperature
    ⟨"n1", none, some 0, some 3, some 4, none, none, none, none⟩ [] (Or.inl rfl)
  exact ⟨h.1.trans rfl, h.2.1.trans rfl⟩

end PiData
